import Mathlib

/-!
Verification development for the Sentinel2_Extractor repository.

The repository consists of two notebook patch utilities
(`fix_embeddings.py`, `fix_notebook_comprehensive.py`), a precipitation
analysis module (`precipitation_analysis.py`), a results-integration module
(`integrate_precipitation.py`), an example driver and a server configuration.

This file gives a shallow embedding of the pure logic of those modules:
  * notebook documents as lists of cells whose source is a list of
    character lists, with the exact line-splitting conventions of the two
    patch utilities;
  * the cell matching / replacement / insertion passes of `fix_notebook`;
  * the anomaly classifiers and `analyze_growing_season` of
    `PrecipitationAnalyzer`;
  * `add_precipitation_context_to_results`, `generate_enhanced_summary`
    (including the Python format-specifier semantics its f-strings rely on)
    and `integrate_precipitation_with_notebook` over an explicit
    file-system and console state;
  * the injected `get_embeddings` / `get_regional_reference` functions that
    `fix_embeddings.py` writes into the analysis notebook.

Machine floats are modelled by `ℚ` (every value the code manipulates is
produced by finite arithmetic on decimal data); remote-platform responses
are modelled as explicit inputs.
-/

/-! ### Character-list string utilities

Notebook sources are sequences of text lines.  We model text as `List Char`
so that the splitting and joining done by the patch utilities is fully
computable and provable.
-/

/-- `startsWithL pat s` is true iff `pat` is a prefix of `s`. -/
def startsWithL : List Char → List Char → Bool
  | [], _ => true
  | _ :: _, [] => false
  | p :: ps, c :: cs => p == c && startsWithL ps cs

/-- `containsSub pat s` is Python's `pat in s` substring test. -/
def containsSub (pat : List Char) : List Char → Bool
  | [] => startsWithL pat []
  | c :: cs => startsWithL pat (c :: cs) || containsSub pat cs

/-- Python's `text.split('\n')`: split a character list at every newline.
The result is always non-empty; pieces contain no newline. -/
def splitOnNl : List Char → List (List Char)
  | [] => [[]]
  | c :: cs =>
    if c = '\n' then [] :: splitOnNl cs
    else
      match splitOnNl cs with
      | [] => [[c]]
      | l :: ls => (c :: l) :: ls

/-- Append a newline to every piece except the last.  This is the convention
of `fix_embeddings.py` (lines 190-193): `source = fixed.split('\n')` followed
by `source[i] += '\n'` for every `i` except the last. -/
def addNlButLast : List (List Char) → List (List Char)
  | [] => []
  | [l] => [l]
  | l :: ls => (l ++ ['\n']) :: addNlButLast ls

/-- The replacement-source convention of `fix_embeddings.py`. -/
def toLinesEmb (s : List Char) : List (List Char) :=
  addNlButLast (splitOnNl s)

/-- The replacement-source convention of `fix_notebook_comprehensive.py`
(e.g. lines 284-285): `source = code.split('\n')` followed by
`source = [line + '\n' for line in source]` — the newline is appended to
every line, the last one included. -/
def toLinesComp (s : List Char) : List (List Char) :=
  (splitOnNl s).map (fun l => l ++ ['\n'])

/-- Join the pieces back with a newline between consecutive pieces
(the inverse of `splitOnNl`). -/
def joinWithNl : List (List Char) → List Char
  | [] => []
  | [l] => l
  | l :: ls => l ++ '\n' :: joinWithNl ls

/-! ### Notebook documents and the comprehensive patch utility

`fix_notebook_comprehensive.py` loads `Multi_Year_ProductivityRaster.ipynb`,
applies one insertion pass and five replacement passes, and saves it back.
A cell is a JSON record with `cell_type`, `source`, `metadata`,
`execution_count` and `outputs`; only `cell_type` and `source` are inspected,
`source` alone is rewritten, and metadata/outputs are carried through
(modelled opaquely as string pairs / strings).
-/

structure NbCell where
  cell_type : String
  source : List (List Char)
  metadata : List (String × String)
  execution_count : Option Int
  outputs : List String
deriving DecidableEq, Repr

def imports_cell_code : List Char :=
  ("# Imports for both Jupyter and Colab environments\n%pip install -q geopandas rasterio fiona shapely numpy\n\nimport geopandas\nimport rasterio\nimport rasterio.warp\nimport rasterio.mask\nimport fiona\nfrom shapely.geometry import shape\nimport numpy as np\nimport os\nimport ipywidgets as widgets\nfrom IPython.display import display\nimport pandas as pd\nimport matplotlib.pyplot as plt\nimport matplotlib.colors as mcolors\n\n# Detect environment (Colab vs Jupyter)\ntry:\n    from google.colab import files\n    IN_COLAB = True\n    print(\"Running in Google Colab environment\")\nexcept ImportError:\n    IN_COLAB = False\n    print(\"Running in Jupyter environment\")").data

def widget_setup_code : List Char :=
  ("# Create configuration widgets\nskip_alignment_widget = widgets.Checkbox(\n    value=False,\n    description=\x27Skip Alignment\x27,\n    tooltip=\x27Skip the reprojection and alignment step if rasters are already aligned\x27\n)\n\ndisplay(skip_alignment_widget)\nprint(\"Configuration widgets created.\")").data

def file_upload_widgets_code : List Char :=
  ("# Create file upload widgets\naoi_upload = widgets.FileUpload(\n    accept=\x27.kml,.geojson,.shp\x27,\n    multiple=False,\n    description=\x27Upload AOI Polygon (KML, GeoJSON, or SHP)\x27\n)\n\nndvi_uploads = widgets.FileUpload(\n    accept=\x27.tif,.tiff\x27,\n    multiple=True,\n    description=\x27Upload NDVI Rasters (GeoTIFFs)\x27\n)\n\ndisplay(aoi_upload)\ndisplay(ndvi_uploads)\nprint(\"File upload widgets created. Please upload your AOI polygon and NDVI rasters.\")").data

def loading_cell_code : List Char :=
  ("aoi_gdf = None\noriginal_ndvi_datasets = []\nmemfiles = []  # Keep MemoryFile objects alive\n\n# Function to handle different widget structures (Jupyter vs Colab)\ndef get_file_content(upload_widget, is_multiple=False):\n    \"\"\"Extract file content from upload widget, handling both Jupyter and Colab formats\"\"\"\n    files_data = []\n    \n    if upload_widget.value:\n        # Check if it\x27s Colab format (dict) or Jupyter format (tuple)\n        if isinstance(upload_widget.value, dict):\n            # Colab format: \x7b\x27filename\x27: \x7b\x27content\x27: bytes\x7d\x7d\n            for filename, file_info in upload_widget.value.items():\n                files_data.append(\x7b\n                    \x27name\x27: filename,\n                    \x27content\x27: file_info[\x27content\x27]\n                \x7d)\n        else:\n            # Jupyter format: (\x7b\x27name\x27: str, \x27content\x27: bytes\x7d, ...)\n            for file_dict in upload_widget.value:\n                files_data.append(\x7b\n                    \x27name\x27: file_dict[\x27name\x27],\n                    \x27content\x27: file_dict[\x27content\x27]\n                \x7d)\n    \n    return files_data[0] if files_data and not is_multiple else files_data\n\n# Load AOI polygon\naoi_file = get_file_content(aoi_upload, is_multiple=False)\nif aoi_file:\n    try:\n        with fiona.io.MemoryFile(aoi_file[\x27content\x27]) as memfile:\n            aoi_gdf = geopandas.read_file(memfile)\n        print(f\"AOI polygon \x27\x7baoi_file[\x27name\x27]\x7d\x27 loaded successfully.\")\n        print(f\"AOI CRS: \x7baoi_gdf.crs\x7d\")\n    except Exception as e:\n        print(f\"Error loading AOI file: \x7be\x7d\")\nelse:\n    print(\"No AOI file uploaded. Skipping AOI loading.\")\n\n# Load NDVI rasters\nndvi_files = get_file_content(ndvi_uploads, is_multiple=True)\nif ndvi_files:\n    for file_data in ndvi_files:\n        try:\n            # Keep MemoryFile alive by storing it\n            memfile = rasterio.io.MemoryFile(file_data[\x27content\x27])\n            dataset = memfile.open()\n            original_ndvi_datasets.append(dataset)\n            memfiles.append(memfile)  # Important: Keep memfile alive!\n            print(f\"NDVI raster \x27\x7bfile_data[\x27name\x27]\x7d\x27 loaded successfully.\")\n        except Exception as e:\n            print(f\"Error loading NDVI file \x27\x7bfile_data[\x27name\x27]\x7d\x27: \x7be\x7d\")\nelse:\n    print(\"No NDVI files uploaded. Skipping NDVI loading.\")\n\n# Initialize ndvi_datasets for later use\nndvi_datasets = []\n\n# Summary\nif aoi_gdf is not None and original_ndvi_datasets:\n    print(f\"\\nSummary: Loaded \x7blen(original_ndvi_datasets)\x7d NDVI raster(s) and 1 AOI polygon.\")\nelif original_ndvi_datasets:\n    print(f\"\\nSummary: Loaded \x7blen(original_ndvi_datasets)\x7d NDVI raster(s), no AOI polygon.\")\nelif aoi_gdf is not None:\n    print(f\"\\nSummary: Loaded 1 AOI polygon, no NDVI rasters.\")\nelse:\n    print(f\"\\nSummary: No files loaded.\")").data

def alignment_cell_code : List Char :=
  ("import rasterio.warp\n\naligned_ndvi_arrays = []\ntarget_crs = None\ntarget_transform = None\ntarget_width = None\ntarget_height = None\n\nif not original_ndvi_datasets:\n    print(\"No NDVI datasets loaded. Skipping reprojection and alignment.\")\n    ndvi_datasets = original_ndvi_datasets\nelse:\n    if skip_alignment_widget.value:\n        print(\"Skipping reprojection and alignment as requested.\")\n        # If alignment is skipped, use the original datasets for subsequent steps\n        ndvi_datasets = original_ndvi_datasets\n        # Get target CRS and transform from the first original dataset\n        if ndvi_datasets:\n            target_crs = ndvi_datasets[0].crs\n            target_transform = ndvi_datasets[0].transform\n            target_width = ndvi_datasets[0].width\n            target_height = ndvi_datasets[0].height\n            print(f\"Using CRS and transform from first dataset: \x7btarget_crs\x7d\")\n    else:\n        print(\"Performing reprojection and alignment...\")\n        # Get CRS and transform from the first dataset\n        first_dataset = original_ndvi_datasets[0]\n        target_crs = first_dataset.crs\n        target_transform = first_dataset.transform\n        target_width = first_dataset.width\n        target_height = first_dataset.height\n        \n        print(f\"Target CRS: \x7btarget_crs\x7d\")\n        print(f\"Target dimensions: \x7btarget_width\x7d x \x7btarget_height\x7d\")\n        \n        # Read all datasets and align them\n        for i, dataset in enumerate(original_ndvi_datasets):\n            try:\n                if i == 0:\n                    # First dataset sets the reference\n                    aligned_ndvi_arrays.append(dataset.read(1))\n                    print(f\"Dataset 0 (reference) read successfully.\")\n                else:\n                    # Reproject other datasets to match the first\n                    reprojected_data = np.empty((target_height, target_width), dtype=dataset.dtypes[0])\n                    \n                    rasterio.warp.reproject(\n                        source=rasterio.band(dataset, 1),\n                        destination=reprojected_data,\n                        src_transform=dataset.transform,\n                        src_crs=dataset.crs,\n                        dst_transform=target_transform,\n                        dst_crs=target_crs,\n                        resampling=rasterio.warp.Resampling.bilinear\n                    )\n                    aligned_ndvi_arrays.append(reprojected_data)\n                    print(f\"Dataset \x7bi\x7d reprojected and aligned.\")\n            except Exception as e:\n                print(f\"Error processing dataset \x7bi\x7d: \x7be\x7d\")\n        \n        # Use aligned arrays for subsequent steps\n        ndvi_datasets = aligned_ndvi_arrays\n        print(f\"\\nAlignment complete: \x7blen(ndvi_datasets)\x7d datasets ready for processing.\")").data

def clipping_cell_code : List Char :=
  ("import rasterio.mask\n\nclipped_ndvi_data_and_transforms = []\n\nif aoi_gdf is None or not ndvi_datasets:\n    print(\"AOI polygon or NDVI datasets not available. Skipping clipping process.\")\nelse:\n    if target_crs is None or target_transform is None:\n        print(\"Target CRS or Transform not defined. Cannot clip.\")\n    else:\n        # Ensure the AOI is in the same CRS as the rasters\n        if aoi_gdf.crs != target_crs:\n            try:\n                aoi_gdf = aoi_gdf.to_crs(target_crs)\n                print(f\"AOI polygon reprojected to target CRS: \x7btarget_crs\x7d\")\n            except Exception as e:\n                print(f\"Error reprojecting AOI polygon: \x7be\x7d\")\n                aoi_gdf = None\n        \n        if aoi_gdf is not None:\n            # Get the geometry for masking\n            geometries = aoi_gdf.geometry.values\n            \n            for i, dataset_or_array in enumerate(ndvi_datasets):\n                try:\n                    if hasattr(dataset_or_array, \x27read\x27):\n                        # It\x27s a rasterio DatasetReader (when alignment was skipped)\n                        clipped_data, clipped_transform = rasterio.mask.mask(\n                            dataset_or_array, geometries, crop=True, nodata=np.nan\n                        )\n                        clipped_data = clipped_data[0]  # Get first band\n                        clipped_ndvi_data_and_transforms.append((clipped_data, clipped_transform))\n                        print(f\"NDVI dataset \x7bi\x7d clipped successfully.\")\n                    else:\n                        # It\x27s a numpy array (when alignment was performed)\n                        # Create a temporary in-memory dataset for clipping\n                        height, width = dataset_or_array.shape\n                        dtype = dataset_or_array.dtype\n                        \n                        with rasterio.MemoryFile() as memfile:\n                            with memfile.open(\n                                driver=\x27GTiff\x27,\n                                height=height,\n                                width=width,\n                                count=1,\n                                dtype=dtype,\n                                crs=target_crs,\n                                transform=target_transform\n                            ) as tmp_dataset:\n                                tmp_dataset.write(dataset_or_array, 1)\n                                \n                                # Perform clipping\n                                clipped_data, clipped_transform = rasterio.mask.mask(\n                                    tmp_dataset, geometries, crop=True, nodata=np.nan\n                                )\n                                clipped_data = clipped_data[0]  # Get first band\n                        \n                        clipped_ndvi_data_and_transforms.append((clipped_data, clipped_transform))\n                        print(f\"NDVI array \x7bi\x7d clipped successfully.\")\n                        \n                except Exception as e:\n                    print(f\"Error clipping item \x7bi\x7d: \x7be\x7d\")\n                    import traceback\n                    traceback.print_exc()\n            \n            # Replace ndvi_datasets with clipped data\n            ndvi_datasets = clipped_ndvi_data_and_transforms\n            print(f\"\\nClipping complete: \x7blen(ndvi_datasets)\x7d datasets clipped to AOI.\")").data

/-- The concatenated source of a cell: Python's `''.join(cell['source'])`. -/
def cellText (c : NbCell) : List Char :=
  List.flatten c.source

/-- A code cell whose concatenated source contains every marker string. -/
def cellMatches (markers : List (List Char)) (c : NbCell) : Bool :=
  c.cell_type == "code" && markers.all (fun m => containsSub m (cellText c))

/-- Replace the source of the first cell (from index `i`) satisfying `pred`;
returns the new cell list and whether a replacement happened.  Mirrors the
`for i, cell in enumerate(...): if ...: cell['source'] = ...; break` loops. -/
def replaceFirstAux (pred : Nat → NbCell → Bool) (newSrc : List (List Char)) :
    Nat → List NbCell → List NbCell × Bool
  | _, [] => ([], false)
  | i, c :: cs =>
    if pred i c then ({ c with source := newSrc } :: cs, true)
    else
      let r := replaceFirstAux pred newSrc (i + 1) cs
      (c :: r.1, r.2)

/-- Insert `newCell` immediately before the first cell satisfying `pred`;
returns the new cell list and whether an insertion happened.  Mirrors the
insertion loop guarded by the run-local `widget_setup_inserted` flag. -/
def insertBeforeFirstAux (pred : NbCell → Bool) (newCell : NbCell) :
    List NbCell → List NbCell × Bool
  | [] => ([], false)
  | c :: cs =>
    if pred c then (newCell :: c :: cs, true)
    else
      let r := insertBeforeFirstAux pred newCell cs
      (c :: r.1, r.2)

/-- The brand-new configuration-widget cell inserted by Fix 2:
empty metadata, no execution count, no outputs, and source produced with the
every-line-terminated convention. -/
def widgetSetupCell : NbCell :=
  { cell_type := "code"
    metadata := []
    source := toLinesComp widget_setup_code
    execution_count := none
    outputs := [] }

/-- `fix_notebook()` of `fix_notebook_comprehensive.py`, file I/O elided:
the six passes applied in program order to the loaded cell list, together
with the ordered list of human-readable fix descriptions that gets printed.
-/
def fix_notebook (cells : List NbCell) : List NbCell × List String :=
  let r1 := replaceFirstAux
    (fun i c => cellMatches [("import geopandas").data, ("import rasterio").data] c
      && decide (i < 10))
    (toLinesComp imports_cell_code) 0 cells
  let f1 : List String :=
    if r1.2 then ["Updated imports cell for environment compatibility"] else []
  let r2 := insertBeforeFirstAux
    (fun c => cellMatches [("aoi_upload = widgets.FileUpload").data] c)
    widgetSetupCell r1.1
  let f2 : List String := if r2.2 then ["Added skip_alignment widget setup"] else []
  let r3 := replaceFirstAux
    (fun _ c => cellMatches [("aoi_upload = widgets.FileUpload").data] c)
    (toLinesComp file_upload_widgets_code) 0 r2.1
  let f3 : List String := if r3.2 then ["Updated file upload widgets"] else []
  let r4 := replaceFirstAux
    (fun _ c => cellMatches [("aoi_gdf = None").data, ("original_ndvi_datasets").data] c)
    (toLinesComp loading_cell_code) 0 r3.1
  let f4 : List String := if r4.2 then ["Fixed loading cell for both environments"] else []
  let r5 := replaceFirstAux
    (fun _ c => cellMatches [("aligned_ndvi_arrays = []").data, ("target_crs = None").data] c)
    (toLinesComp alignment_cell_code) 0 r4.1
  let f5 : List String := if r5.2 then ["Updated alignment cell"] else []
  let r6 := replaceFirstAux
    (fun _ c => cellMatches [("clipped_ndvi_data_and_transforms = []").data, ("rasterio.mask").data] c)
    (toLinesComp clipping_cell_code) 0 r5.1
  let f6 : List String := if r6.2 then ["Updated clipping cell"] else []
  (r6.1, f1 ++ f2 ++ f3 ++ f4 ++ f5 ++ f6)

/-- Modelled from the spec: the target document
`Multi_Year_ProductivityRaster.ipynb` is not part of the repository; §4.4 of
the spec describes it as containing, in document order, an imports cell
(with the two import markers, within the first 10 cells), an
upload-widgets cell, a loading cell, an alignment cell and a clipping cell,
each identified by the quoted marker strings.  This representative document
realises exactly that structure (plus a leading narrative cell). -/
def sampleNotebook : List NbCell :=
  [ { cell_type := "markdown"
      source := [("# Multi-year productivity raster\n").data, ("import geopandas is used below").data]
      metadata := [("tags", "intro")], execution_count := none, outputs := [] }
  , { cell_type := "code"
      source := [("import geopandas\n").data, ("import rasterio\n").data, ("import numpy as np").data]
      metadata := [("collapsed", "false")], execution_count := some 1, outputs := ["stream-out"] }
  , { cell_type := "code"
      source := [("aoi_upload = widgets.FileUpload(accept=\x27.kml\x27)\n").data, ("display(aoi_upload)").data]
      metadata := [], execution_count := some 2, outputs := [] }
  , { cell_type := "code"
      source := [("aoi_gdf = None\n").data, ("original_ndvi_datasets = []").data]
      metadata := [], execution_count := some 3, outputs := [] }
  , { cell_type := "code"
      source := [("aligned_ndvi_arrays = []\n").data, ("target_crs = None").data]
      metadata := [], execution_count := some 4, outputs := ["png-out"] }
  , { cell_type := "code"
      source := [("import rasterio.mask\n").data, ("clipped_ndvi_data_and_transforms = []").data]
      metadata := [], execution_count := some 5, outputs := [] } ]

/-- Number of configuration-widget (skip_alignment) cells in a document. -/
def widgetCellCount (cells : List NbCell) : Nat :=
  cells.countP
    (fun c => containsSub ("skip_alignment_widget = widgets.Checkbox").data (cellText c))

/-! ### Precipitation analysis (`precipitation_analysis.py`)

`PrecipitationAnalyzer` classifies monthly values against baseline
percentiles and builds the growing-season table.  Baseline statistics and
current monthly data enter `analyze_growing_season` as finite maps
month -> value, exactly the dict shapes produced by
`calculate_baseline_statistics` and `extract_monthly_precipitation`
(every requested month present; a month with no remote coverage carries
`None`, modelled as `Option.none`).
-/

/-- Per-month baseline statistics record of `calculate_baseline_statistics`. -/
structure BaselineStat where
  mean : ℚ
  median : ℚ
  stdev : ℚ
  p10 : ℚ
  p25 : ℚ
  p75 : ℚ
  p90 : ℚ
  month_name : String
deriving DecidableEq, Repr

/-- `classify_precipitation_anomaly` (lines 163-172): ascending percentile
bands, each comparison inclusive, first hit wins. -/
def classify_precipitation_anomaly (current_precip : ℚ) (baseline_stats : BaselineStat) : String :=
  if current_precip ≤ baseline_stats.p10 then "Extremely Dry"
  else if current_precip ≤ baseline_stats.p25 then "Dry"
  else if current_precip ≤ baseline_stats.p75 then "Normal"
  else if current_precip ≤ baseline_stats.p90 then "Wet"
  else "Extremely Wet"

/-- `_classify_seasonal_anomaly` (lines 259-268). -/
def classify_seasonal_anomaly (anomaly_percent : ℚ) : String :=
  if anomaly_percent ≤ -30 then "Extremely Dry Season"
  else if anomaly_percent ≤ -15 then "Dry Season"
  else if anomaly_percent ≤ 15 then "Normal Season"
  else if anomaly_percent ≤ 30 then "Wet Season"
  else "Extremely Wet Season"

/-- Round a rational to the nearest integer, ties to even — the idealised
semantics of Python's builtin `round` on exact decimal data. -/
def roundHalfEven (q : ℚ) : ℤ :=
  let f := ⌊q⌋
  let r := q - f
  if r < 1 / 2 then f
  else if 1 / 2 < r then f + 1
  else if f % 2 = 0 then f else f + 1

/-- Python's `round(x, 1)`. -/
def pyRound1 (q : ℚ) : ℚ :=
  (roundHalfEven (q * 10) : ℚ) / 10

/-- One row of the growing-season analysis table. -/
structure SeasonRow where
  month : String
  precip : ℚ
  normal : ℚ
  anomaly : ℚ
  anomalyPct : ℚ
  classification : String
deriving DecidableEq, Repr

/-- The growing-season months `range(4, 11)` (April through October). -/
def gsMonths : List Nat := [4, 5, 6, 7, 8, 9, 10]

/-- The monthly data row built when current data and a positive baseline
mean are available (lines 200-212). -/
def seasonDataRow (c : ℚ) (b : BaselineStat) : SeasonRow :=
  let anomaly := c - b.mean
  let anomaly_percent := anomaly / b.mean * 100
  { month := b.month_name
    precip := pyRound1 c
    normal := pyRound1 b.mean
    anomaly := pyRound1 anomaly
    anomalyPct := pyRound1 anomaly_percent
    classification := classify_precipitation_anomaly c b }

/-- The missing-data row (lines 213-222): also taken when current data
exists but the baseline mean is not positive. -/
def seasonNoDataRow (b : BaselineStat) : SeasonRow :=
  { month := b.month_name
    precip := 0
    normal := if b.mean > 0 then pyRound1 b.mean else 0
    anomaly := 0
    anomalyPct := 0
    classification := "No Data" }

/-- The seasonal summary row (lines 224-242): totals over the non-"No Data"
monthly rows, percent anomaly of the totals, seasonal classification of the
unrounded percent anomaly. -/
def seasonSummaryRow (monthly : List SeasonRow) : SeasonRow :=
  let valid := monthly.filter (fun r => r.classification ≠ "No Data")
  let season_precip := (valid.map (fun r => r.precip)).sum
  let season_normal := (valid.map (fun r => r.normal)).sum
  let p : ℚ × ℚ :=
    if season_normal > 0 then
      (season_precip - season_normal, (season_precip - season_normal) / season_normal * 100)
    else (0, 0)
  { month := "SEASONAL TOTAL"
    precip := pyRound1 season_precip
    normal := pyRound1 season_normal
    anomaly := pyRound1 p.1
    anomalyPct := pyRound1 p.2
    classification := classify_seasonal_anomaly p.2 }

/-- `analyze_growing_season` (lines 174-244), with the current-year data and
the baseline statistics dicts passed explicitly: for each growing-season
month present in both dicts, a data row or a "No Data" row; then the
seasonal summary row. -/
def analyze_growing_season (current_data : List (Nat × Option ℚ))
    (baseline_stats : List (Nat × BaselineStat)) : List SeasonRow :=
  let monthly := gsMonths.filterMap (fun month =>
    match current_data.lookup month, baseline_stats.lookup month with
    | some current_precip, some b =>
      some (match current_precip with
        | some c => if b.mean > 0 then seasonDataRow c b else seasonNoDataRow b
        | none => seasonNoDataRow b)
    | _, _ => none)
  monthly ++ [seasonSummaryRow monthly]

/-! ### Results integration (`integrate_precipitation.py`)

A reclamation results table is a data frame with a `year` column, optional
similarity columns and an optional `difference_in_differences` column;
column presence is table-level state, per-row values live in the rows.
`generate_enhanced_summary` builds its report with Python f-strings; the
format specifier of a replacement field is passed verbatim to `float`
formatting at run time, so the embedding models that step explicitly with
`pyFormatFloat`, which accepts the fixed-point specs `.Nf` used by this
repository and rejects any other spec string exactly as CPython does
(`ValueError: Invalid format specifier`).
-/

/-- One record of `precipitation_context.json`'s `yearly_analysis` mapping. -/
structure PrecipYear where
  anomaly_percent : ℚ
  classification : String
  vegetation_impact : String
deriving DecidableEq, Repr

/-- The parsed precipitation-context file: a mapping from year-as-text to
yearly records. -/
structure PrecipData where
  yearly_analysis : List (String × PrecipYear)
deriving DecidableEq, Repr

/-- An input results-table row.  `did`, `lvb`, `lvr` carry the values of the
`difference_in_differences`, `lease_vs_background` and `lease_vs_regional`
columns; each is meaningful only when the table-level flag for that column
is set. -/
structure RowIn where
  year : ℤ
  crop : String
  did : ℚ
  lvb : ℚ
  lvr : ℚ
deriving DecidableEq, Repr

/-- An input reclamation results table. -/
structure ResultsTable where
  hasDiD : Bool
  hasLvb : Bool
  hasLvr : Bool
  rows : List RowIn
deriving DecidableEq, Repr

/-- A row after `add_precipitation_context_to_results`: the four
precipitation-context columns exist on every row. -/
structure RowOut where
  year : ℤ
  crop : String
  did : ℚ
  lvb : ℚ
  lvr : ℚ
  precip_anomaly_pct : ℚ
  precip_classification : String
  precip_impact : String
  adjusted_performance : ℚ
deriving DecidableEq, Repr

/-- The enhanced results table. -/
structure EnhancedTable where
  hasDiD : Bool
  hasLvb : Bool
  hasLvr : Bool
  rows : List RowOut
deriving DecidableEq, Repr

/-- Per-row body of the loop of `add_precipitation_context_to_results`
(lines 38-56): rows whose year has no record keep the initialised column
values (0.0, empty strings); matched rows receive the record's three fields,
and `adjusted_performance` is written only when the
`difference_in_differences` column exists. -/
def enhanceRow (hasDiD : Bool) (precip_data : PrecipData) (r : RowIn) : RowOut :=
  match precip_data.yearly_analysis.lookup (toString r.year) with
  | none =>
    { year := r.year, crop := r.crop, did := r.did, lvb := r.lvb, lvr := r.lvr
      precip_anomaly_pct := 0
      precip_classification := ""
      precip_impact := ""
      adjusted_performance := 0 }
  | some y =>
    let adjustment_factor : ℚ :=
      if y.anomaly_percent < -15 then 5 / 100
      else if y.anomaly_percent > 15 then -3 / 100
      else 0
    { year := r.year, crop := r.crop, did := r.did, lvb := r.lvb, lvr := r.lvr
      precip_anomaly_pct := y.anomaly_percent
      precip_classification := y.classification
      precip_impact := y.vegetation_impact
      adjusted_performance := if hasDiD then r.did + adjustment_factor else 0 }

/-- `add_precipitation_context_to_results` (lines 12-58), with the parsed
precipitation-context file passed explicitly. -/
def add_precipitation_context_to_results (results_df : ResultsTable)
    (precip_data : PrecipData) : EnhancedTable :=
  { hasDiD := results_df.hasDiD
    hasLvb := results_df.hasLvb
    hasLvr := results_df.hasLvr
    rows := results_df.rows.map (enhanceRow results_df.hasDiD precip_data) }

/-- Numeric value of a digit string. -/
def digitsToNat (ds : List Char) : Nat :=
  ds.foldl (fun a c => a * 10 + (c.toNat - 48)) 0

/-- Recognise a fixed-point float format specifier `.Nf`.  Any other spec
string occurring in this repository (in particular the conditional
expressions accidentally placed after `:` in the f-strings of
`generate_enhanced_summary`) is rejected by CPython with
`ValueError: Invalid format specifier`, and is rejected here. -/
def validFixedSpec (spec : List Char) : Option Nat :=
  match spec with
  | '.' :: rest =>
    let ds := rest.dropLast
    if rest.getLast? == some 'f' && !ds.isEmpty && ds.all (fun c => c.isDigit)
    then some (digitsToNat ds) else none
  | _ => none

/-- Left-pad a string with zeros to width `n`. -/
def padZeros (n : Nat) (s : String) : String :=
  String.mk (List.replicate (n - s.length) '0') ++ s

/-- Fixed-point rendering of a rational with `n` decimals (round half to
even, the idealised semantics of CPython float formatting on exact decimal
data; a negative value rounding to zero keeps its sign, as in CPython). -/
def fixedRepr (n : Nat) (q : ℚ) : String :=
  let s := roundHalfEven (q * 10 ^ n)
  let sign := if s < 0 ∨ (s = 0 ∧ q < 0) then "-" else ""
  let mag := s.natAbs
  if n = 0 then sign ++ toString mag
  else sign ++ toString (mag / 10 ^ n) ++ "." ++ padZeros n (toString (mag % 10 ^ n))

/-- Python's `format(q, spec)` for floats, restricted to the spec strings
this repository passes: `.Nf` renders, everything else raises. -/
def pyFormatFloat (spec : String) (q : ℚ) : Except String String :=
  match validFixedSpec spec.data with
  | some n => Except.ok (fixedRepr n q)
  | none => Except.error "Invalid format specifier"

/-- Mean of a series.  pandas returns NaN for an empty series; the embedding
returns 0 there — in `generate_enhanced_summary` every formatting of a
possibly-empty mean goes through an invalid format specifier, so the value
is never rendered. -/
def meanQ (l : List ℚ) : ℚ :=
  if l.length = 0 then 0 else l.sum / (l.length : ℚ)

/-- `str(series.min())` for the `year` column (`nan` on an empty frame). -/
def yearsMinStr (ys : List ℤ) : String :=
  match ys.min? with
  | some m => toString m
  | none => "nan"

/-- `str(series.max())` for the `year` column (`nan` on an empty frame). -/
def yearsMaxStr (ys : List ℤ) : String :=
  match ys.max? with
  | some m => toString m
  | none => "nan"

/-- `', '.join(map(str, years))`. -/
def joinYears (ys : List ℤ) : String :=
  String.intercalate ", " (ys.map (fun y => toString y))

/-- The fixed recommendations block appended to every report. -/
def recommendationsBlock : String :=
  "\n    \n    RECOMMENDATIONS:\n    \x2d\x2d\x2d\x2d\x2d\x2d\x2d\x2d\x2d\x2d\x2d\x2d\x2d\x2d\x2d\x2d\n    1. Focus additional assessment on normal precipitation years for most accurate evaluation\n    2. Consider multi-year trends rather than single-year snapshots\n    3. Account for lag effects - recovery may be delayed after extreme weather years\n    4. Use precipitation-adjusted metrics for regulatory compliance decisions\n    "

/-- The similarity series of the no-DiD branch:
`results_df.get('lease_vs_background', results_df.get('lease_vs_regional', pd.Series()))`. -/
def simpleSimilaritySeries (t : EnhancedTable) : List ℚ :=
  if t.hasLvb then t.rows.map (fun r => r.lvb)
  else if t.hasLvr then t.rows.map (fun r => r.lvr)
  else []

/-- `generate_enhanced_summary` (lines 184-281).  String assembly follows
the source's f-strings segment by segment; each replacement field with a
format spec is an explicit `pyFormatFloat` application, so a spec that
CPython rejects surfaces as `Except.error`, i.e. as the `ValueError` the
function raises. -/
def generate_enhanced_summary (results_df : EnhancedTable) : Except String String :=
  let rows := results_df.rows
  let dry_years := rows.filter (fun r => decide (r.precip_anomaly_pct < -15))
  let wet_years := rows.filter (fun r => decide (r.precip_anomaly_pct > 15))
  let normal_years := rows.filter
    (fun r => decide (-15 ≤ r.precip_anomaly_pct) && decide (r.precip_anomaly_pct ≤ 15))
  let years := rows.map (fun r => r.year)
  Except.bind (pyFormatFloat ".1f" (meanQ (rows.map (fun r => r.precip_anomaly_pct))))
    (fun avg_str =>
  let summary :=
    "\n    ENHANCED RECLAMATION ASSESSMENT WITH PRECIPITATION CONTEXT\n    \x3d\x3d\x3d\x3d\x3d\x3d\x3d\x3d\x3d\x3d\x3d\x3d\x3d\x3d\x3d\x3d\x3d\x3d\x3d\x3d\x3d\x3d\x3d\x3d\x3d\x3d\x3d\x3d\x3d\x3d\x3d\x3d\x3d\x3d\x3d\x3d\x3d\x3d\x3d\x3d\x3d\x3d\x3d\x3d\x3d\x3d\x3d\x3d\x3d\x3d\x3d\x3d\x3d\x3d\x3d\x3d\x3d\x3d\n    \n    Analysis Period: "
    ++ yearsMinStr years ++ " - " ++ yearsMaxStr years
    ++ "\n    Total Years Analyzed: " ++ toString rows.length
    ++ "\n    \n    PRECIPITATION CONTEXT:\n    \x2d\x2d\x2d\x2d\x2d\x2d\x2d\x2d\x2d\x2d\x2d\x2d\x2d\x2d\x2d\x2d\x2d\x2d\x2d\x2d\x2d\x2d\n    Dry Years ("
    ++ toString dry_years.length ++ "): " ++ joinYears (dry_years.map (fun r => r.year))
    ++ "\n    Normal Years (" ++ toString normal_years.length ++ "): "
    ++ joinYears (normal_years.map (fun r => r.year))
    ++ "\n    Wet Years (" ++ toString wet_years.length ++ "): "
    ++ joinYears (wet_years.map (fun r => r.year))
    ++ "\n    \n    Average Precipitation Anomaly: " ++ avg_str ++ "%\n    "
  if results_df.hasDiD then
    Except.bind (pyFormatFloat ".4f" (meanQ (rows.map (fun r => r.did)))) (fun m1 =>
    Except.bind (pyFormatFloat ".4f if len(dry_years) > 0 else \x27N/A\x27"
      (meanQ (dry_years.map (fun r => r.did)))) (fun m2 =>
    Except.bind (pyFormatFloat ".4f if len(normal_years) > 0 else \x27N/A\x27"
      (meanQ (normal_years.map (fun r => r.did)))) (fun m3 =>
    Except.bind (pyFormatFloat ".4f if len(wet_years) > 0 else \x27N/A\x27"
      (meanQ (wet_years.map (fun r => r.did)))) (fun m4 =>
    Except.bind (pyFormatFloat ".4f" (meanQ (rows.map (fun r => r.adjusted_performance))))
      (fun m5 =>
    Except.bind (pyFormatFloat ".4f"
      (meanQ (rows.map (fun r => r.adjusted_performance - r.did)))) (fun m6 =>
    let summary := summary
      ++ "\n    PERFORMANCE METRICS:\n    \x2d\x2d\x2d\x2d\x2d\x2d\x2d\x2d\x2d\x2d\x2d\x2d\x2d\x2d\x2d\x2d\x2d\x2d\x2d\x2d\n    Raw Performance (DiD):\n      Mean: "
      ++ m1 ++ "\n      Dry Years Mean: " ++ m2 ++ "\n      Normal Years Mean: " ++ m3
      ++ "\n      Wet Years Mean: " ++ m4 ++ "\n    \n    Adjusted Performance:\n      Mean: "
      ++ m5 ++ "\n      Improvement from adjustment: " ++ m6
      ++ "\n    \n    INTERPRETATION:\n    \x2d\x2d\x2d\x2d\x2d\x2d\x2d\x2d\x2d\x2d\x2d\x2d\x2d\x2d\x2d\n    "
    let adj_mean := meanQ (rows.map (fun r => r.adjusted_performance))
    Except.bind
      (if -(5 / 100 : ℚ) ≤ adj_mean then
        Except.ok "\n    ✓ ADJUSTED ASSESSMENT: When accounting for precipitation variability, \n      the lease site is performing equivalently to the background field.\n      This suggests successful reclamation with equivalent land capability."
      else
        Except.bind (pyFormatFloat ".3f" |adj_mean|) (fun a =>
          Except.ok
            ("\n    ⚠ ADJUSTED ASSESSMENT: Even after accounting for precipitation effects,\n      the lease site is underperforming by "
              ++ a
              ++ " on average.\n      This suggests that factors beyond weather are limiting recovery.")))
      (fun interp =>
    let summary := summary ++ interp
    let summary := summary ++
      (if dry_years.length > 0 then
        "\n    \n    DRY YEAR INSIGHTS:\n    During dry years, the lease showed "
        ++ (if meanQ (dry_years.map (fun r => r.adjusted_performance)) >
              meanQ (dry_years.map (fun r => r.did)) then "better" else "worse")
        ++ " \n    relative performance after precipitation adjustment, suggesting the site is \n    "
        ++ (if meanQ (dry_years.map (fun r => r.adjusted_performance)) > -(5 / 100 : ℚ)
            then "resilient to" else "vulnerable to")
        ++ " drought stress."
      else "")
    Except.ok (summary ++ recommendationsBlock))))))))
  else
    Except.bind (pyFormatFloat ".4f" (meanQ (simpleSimilaritySeries results_df))) (fun ms =>
    Except.ok (summary
      ++ "\n    PERFORMANCE METRICS:\n    \x2d\x2d\x2d\x2d\x2d\x2d\x2d\x2d\x2d\x2d\x2d\x2d\x2d\x2d\x2d\x2d\x2d\x2d\x2d\x2d\n    Mean Similarity: " ++ ms
      ++ "\n    \n    INTERPRETATION:\n    \x2d\x2d\x2d\x2d\x2d\x2d\x2d\x2d\x2d\x2d\x2d\x2d\x2d\x2d\x2d\n    Precipitation context helps explain year-to-year variations in performance.\n    Dry years typically show lower vegetation productivity across all fields.\n    "
      ++ recommendationsBlock)))

/-! ### File system and orchestration (`integrate_precipitation_with_notebook`) -/

/-- Contents of a persisted file, by kind. -/
inductive FileData where
  | jsonPrecip (pd : PrecipData)
  | csvTable (t : EnhancedTable)
  | pngFigure
  | textFile (s : String)
deriving DecidableEq

/-- Local state touched by the integrator: directories, files, and the
console transcript (failure reporting in this system is print-based). -/
structure FileSys where
  dirs : List String
  files : List (String × FileData)
  printed : List String
deriving DecidableEq

/-- `os.makedirs(d, exist_ok=True)`. -/
def makedirs (d : String) (fs : FileSys) : FileSys :=
  { fs with dirs := if d ∈ fs.dirs then fs.dirs else d :: fs.dirs }

/-- `print(msg)`. -/
def printMsg (msg : String) (fs : FileSys) : FileSys :=
  { fs with printed := fs.printed ++ [msg] }

/-- Write (create or overwrite) a file. -/
def writeFileFS (path : String) (data : FileData) (fs : FileSys) : FileSys :=
  { fs with files := (path, data) :: fs.files.filter (fun p => p.1 ≠ path) }

/-- The value `integrate_precipitation_with_notebook` returns: either the
untouched input table (missing-prerequisite short-circuit) or the enhanced
table. -/
inductive DFResult where
  | plain (t : ResultsTable)
  | enhanced (e : EnhancedTable)
deriving DecidableEq

/-- `create_integrated_visualization` (lines 60-182): the figure itself is
graphical output; its observable effects are the file written at
`save_path` and the completion message.  All format specs it uses
(`.0f`, `.3f`) are valid, so it completes normally. -/
def create_integrated_visualization (save_path : String) (fs : FileSys) : FileSys :=
  printMsg ("✓ Integrated visualization saved to " ++ save_path)
    (writeFileFS save_path FileData.pngFigure fs)

/-- `integrate_precipitation_with_notebook` (lines 284-330): ensure the
output directory, short-circuit with a warning when the context file is
absent, otherwise enhance, visualize, summarise, and persist CSV and text
report.  An exception escaping a callee (e.g. the `ValueError` from
`generate_enhanced_summary`) propagates as `Except.error`. -/
def integrate_precipitation_with_notebook (results_df : ResultsTable)
    (output_dir : String) (fs : FileSys) : Except String (DFResult × FileSys) :=
  let fs1 := makedirs output_dir fs
  let precip_file := output_dir ++ "/precipitation_context.json"
  match fs1.files.lookup precip_file with
  | none =>
    Except.ok (DFResult.plain results_df,
      printMsg "  Please run Precipitation_Context_Analysis.ipynb first to generate precipitation data."
        (printMsg "⚠ Warning: precipitation_context.json not found." fs1))
  | some (FileData.jsonPrecip precip_data) =>
    let fs2 := printMsg "Adding precipitation context to results..." fs1
    let enhanced_df := add_precipitation_context_to_results results_df precip_data
    let fs3 := printMsg "Creating integrated visualizations..." fs2
    let fs4 := create_integrated_visualization (output_dir ++ "/integrated_analysis.png") fs3
    let fs5 := printMsg "Generating enhanced summary report..." fs4
    match generate_enhanced_summary enhanced_df with
    | Except.error e => Except.error e
    | Except.ok summary =>
      let fs6 := printMsg summary fs5
      let fs7 := writeFileFS (output_dir ++ "/enhanced_reclamation_results.csv")
        (FileData.csvTable enhanced_df) fs6
      let fs8 := writeFileFS (output_dir ++ "/enhanced_summary.txt")
        (FileData.textFile summary) fs7
      let fs9 := printMsg ("\n✓ Enhanced results saved to " ++ output_dir ++ "/") fs8
      Except.ok (DFResult.enhanced enhanced_df, fs9)
  | some _ => Except.error "json.load: precipitation_context.json is not valid JSON"

/-! ### Injected embedding-extraction functions (`fix_embeddings.py`)

The corrected `get_embeddings` / `get_regional_reference` source that
`fix_embeddings.py` writes into the analysis notebook (lines 21-187 of the
utility).  Remote-platform responses enter as explicit inputs: a
`reduceRegion().getInfo()` dictionary for `get_embeddings`, and per-radius
sampling outcomes for `get_regional_reference`.
-/

/-- A value of the remote platform's JSON response as seen by the injected
code: missing/None, a number, or something `float()` / `int()` rejects. -/
inductive PyVal where
  | pynull
  | num (q : ℚ)
  | nonnum
deriving DecidableEq, Repr

/-- The None / `float()` coercion of the injected code (lines 60-68 and
144-152): `None` becomes 0.0, numbers pass through, a `TypeError` or
`ValueError` degrades to 0.0. -/
def pyFloat : PyVal → ℚ
  | PyVal.pynull => 0
  | PyVal.num q => q
  | PyVal.nonnum => 0

/-- Python's `int()` truncation toward zero on a float. -/
def pyTruncToInt (q : ℚ) : ℤ :=
  if 0 ≤ q then ⌊q⌋ else -⌊-q⌋

/-- The pixel-count coercion (lines 73-80): `None` becomes 0, numbers are
truncated by `int()`, a failing conversion degrades to 0. -/
def pyIntOfVal : PyVal → ℤ
  | PyVal.pynull => 0
  | PyVal.num q => pyTruncToInt q
  | PyVal.nonnum => 0

/-- The `reduceRegion(...).getInfo()` result: the values at the keys
`'A00_mean'` … `'A63_mean'` (an absent key and a `None` value both take the
`val is None` branch and are modelled as `pynull`) and the value at
`'A00_count'` (`none` when the key is absent, in which case `dict.get`
supplies the default `0`). -/
structure ReduceResult where
  means : Nat → PyVal
  countVal : Option PyVal

/-- The dictionary returned by `get_embeddings`. -/
structure EmbeddingOut where
  embedding : List ℚ
  pixel_count : ℤ
  year : ℤ
deriving DecidableEq, Repr

/-- `get_embeddings(geometry, year, scale)` (lines 24-86 of the injected
source), applied to the reduction result for that geometry and year. -/
def get_embeddings (res : ReduceResult) (year : ℤ) : EmbeddingOut :=
  { embedding := (List.range 64).map (fun i => pyFloat (res.means i))
    pixel_count := pyIntOfVal (res.countVal.getD (PyVal.num 0))
    year := year }

/-- Per-radius sampling outcomes of the remote platform:
`samples.size().getInfo()` (a collection size, hence a natural number) and
`reduceColumns(...).getInfo()['mean']` for a given buffer radius. -/
structure SamplingEnv where
  size : ℚ → Nat
  meanVals : ℚ → List PyVal

/-- The dictionary returned by `get_regional_reference`. -/
structure RegionalRef where
  embedding : List ℚ
  sample_count : Nat
  actual_radius : ℚ
deriving DecidableEq, Repr

/-- The `for current_radius in [radius_km, radius_km * 2, max_radius_km]`
loop of `get_regional_reference` (lines 106-160): the first radius whose
realized sample count exceeds 100 is accepted; otherwise the zero-vector
fallback (lines 162-167). -/
def tryRadii (env : SamplingEnv) (max_radius_km : ℚ) : List ℚ → RegionalRef
  | [] =>
    { embedding := List.replicate 64 0
      sample_count := 0
      actual_radius := max_radius_km }
  | r :: rs =>
    if env.size r > 100 then
      { embedding := (env.meanVals r).map pyFloat
        sample_count := env.size r
        actual_radius := r }
    else tryRadii env max_radius_km rs

/-- `get_regional_reference(center_point, crop_code, year, radius_km,
sample_pixels, max_radius_km)` (lines 88-167 of the injected source). -/
def get_regional_reference (env : SamplingEnv) (radius_km max_radius_km : ℚ) : RegionalRef :=
  tryRadii env max_radius_km [radius_km, radius_km * 2, max_radius_km]

/-! ### Concrete inputs used by witnesses and counterexamples -/

/-- The document after one run of the comprehensive patch utility. -/
def sampleNotebookOnce : List NbCell :=
  (fix_notebook sampleNotebook).1

/-- The document after two runs of the comprehensive patch utility. -/
def sampleNotebookTwice : List NbCell :=
  (fix_notebook sampleNotebookOnce).1

/-- Growing-season baseline statistics with ordinary positive monthly
normals (used for the all-months-missing scenario). -/
def basAllMissing : List (Nat × BaselineStat) :=
  [ (4, { mean := 50, median := 48, stdev := 5, p10 := 20, p25 := 40, p75 := 100, p90 := 140, month_name := "April" })
  , (5, { mean := 60, median := 58, stdev := 6, p10 := 25, p25 := 45, p75 := 105, p90 := 145, month_name := "May" })
  , (6, { mean := 70, median := 68, stdev := 7, p10 := 30, p25 := 50, p75 := 110, p90 := 150, month_name := "June" })
  , (7, { mean := 65, median := 64, stdev := 6, p10 := 28, p25 := 47, p75 := 108, p90 := 148, month_name := "July" })
  , (8, { mean := 55, median := 54, stdev := 5, p10 := 22, p25 := 42, p75 := 102, p90 := 142, month_name := "August" })
  , (9, { mean := 45, median := 44, stdev := 4, p10 := 18, p25 := 38, p75 := 98, p90 := 138, month_name := "September" })
  , (10, { mean := 35, median := 34, stdev := 3, p10 := 14, p25 := 34, p75 := 94, p90 := 134, month_name := "October" }) ]

/-- A year in which the remote climate collection has no image for any
growing-season month: every monthly value is `None`. -/
def curAllMissing : List (Nat × Option ℚ) :=
  [(4, none), (5, none), (6, none), (7, none), (8, none), (9, none), (10, none)]

/-- Baseline percentiles of the specification's worked example:
p10 = 20, p25 = 40, p75 = 100, p90 = 140. -/
def statsExample : BaselineStat :=
  { mean := 70, median := 70, stdev := 10, p10 := 20, p25 := 40, p75 := 100, p90 := 140
    month_name := "June" }

/-- A one-row enhanced table that carries a `difference_in_differences`
column (the failing input for `generate_enhanced_summary`). -/
def tableWithDiD : EnhancedTable :=
  { hasDiD := true, hasLvb := false, hasLvr := false
    rows := [{ year := 2021, crop := "wheat", did := -(2 / 100), lvb := 0, lvr := 0
               precip_anomaly_pct := -20, precip_classification := "Dry Season"
               precip_impact := "Drought stress likely affecting crop growth"
               adjusted_performance := 3 / 100 }] }

/-- A one-row input results table without a `difference_in_differences`
column. -/
def tableNoDiD : ResultsTable :=
  { hasDiD := false, hasLvb := true, hasLvr := false
    rows := [{ year := 2021, crop := "wheat", did := 0, lvb := 1, lvr := 0 }] }

/-- A precipitation-context file with a record for year 2021. -/
def precipData2021 : PrecipData :=
  { yearly_analysis :=
      [("2021", { anomaly_percent := -20, classification := "Dry Season"
                  vegetation_impact := "Drought stress likely affecting crop growth" })] }

/-- An empty local state: no directories, no files, nothing printed. -/
def emptyFS : FileSys :=
  { dirs := [], files := [], printed := [] }

/-- A reduction result with one missing band, one non-numeric band, numeric
values elsewhere, and a fractional numeric pixel count. -/
def reduceResExample : ReduceResult :=
  { means := fun i => if i = 0 then PyVal.pynull else if i = 1 then PyVal.nonnum else PyVal.num (i : ℚ)
    countVal := some (PyVal.num (25 / 2)) }

/-- A sampling scenario in which only the third (maximum) radius clears the
100-sample threshold, with 150 samples. -/
def envThirdRadius : SamplingEnv :=
  { size := fun r => if r = 50 then 150 else 80
    meanVals := fun _ => [PyVal.num 1, PyVal.pynull, PyVal.nonnum] }

/-! ### Helper lemmas -/

set_option maxRecDepth 100000

theorem splitOnNl_ne_nil (s : List Char) : splitOnNl s ≠ [] := by
  cases s with
  | nil => simp [splitOnNl]
  | cons c cs =>
    simp only [splitOnNl]
    split
    · simp
    · cases h : splitOnNl cs <;> simp

theorem joinWithNl_splitOnNl (s : List Char) : joinWithNl (splitOnNl s) = s := by
  induction s with
  | nil => rfl
  | cons c cs ih =>
    simp only [splitOnNl]
    by_cases hc : c = '\n'
    · subst hc
      simp only [if_pos rfl]
      cases h : splitOnNl cs with
      | nil => exact absurd h (splitOnNl_ne_nil cs)
      | cons l ls =>
        rw [h] at ih
        simp [joinWithNl, ← ih]
    · rw [if_neg hc]
      cases h : splitOnNl cs with
      | nil => exact absurd h (splitOnNl_ne_nil cs)
      | cons l ls =>
        rw [h] at ih
        cases ls with
        | nil => simpa [joinWithNl] using ih
        | cons l2 ls2 => simpa [joinWithNl] using ih

theorem nl_not_mem_splitOnNl (s : List Char) :
    ∀ p ∈ splitOnNl s, '\n' ∉ p := by
  induction s with
  | nil =>
    intro p hp
    simp [splitOnNl] at hp
    simp [hp]
  | cons c cs ih =>
    intro p hp
    simp only [splitOnNl] at hp
    by_cases hc : c = '\n'
    · subst hc
      rw [if_pos rfl] at hp
      rcases List.mem_cons.mp hp with h | h
      · simp [h]
      · exact ih p h
    · rw [if_neg hc] at hp
      cases h : splitOnNl cs with
      | nil => exact absurd h (splitOnNl_ne_nil cs)
      | cons l ls =>
        rw [h] at hp
        rcases List.mem_cons.mp hp with h1 | h1
        · subst h1
          intro hmem
          rcases List.mem_cons.mp hmem with h2 | h2
          · exact hc h2.symm
          · exact ih l (h ▸ List.mem_cons_self l ls) h2
        · exact ih p (h ▸ List.mem_cons_of_mem l h1)

theorem addNlButLast_ne_nil (ps : List (List Char)) (h : ps ≠ []) : addNlButLast ps ≠ [] := by
  cases ps with
  | nil => exact absurd rfl h
  | cons l ls => cases ls <;> simp [addNlButLast]

theorem flatten_addNlButLast (ps : List (List Char)) (h : ps ≠ []) :
    List.flatten (addNlButLast ps) = joinWithNl ps := by
  induction ps with
  | nil => exact absurd rfl h
  | cons l ls ih =>
    cases ls with
    | nil => simp [addNlButLast, joinWithNl]
    | cons l2 ls2 =>
      have ih' := ih (by simp)
      show List.flatten ((l ++ ['\n']) :: addNlButLast (l2 :: ls2)) =
        l ++ '\n' :: joinWithNl (l2 :: ls2)
      rw [List.flatten_cons, ih']
      simp [List.append_assoc]

theorem flatten_mapNl (ps : List (List Char)) (h : ps ≠ []) :
    List.flatten (ps.map (fun l => l ++ ['\n'])) = joinWithNl ps ++ ['\n'] := by
  induction ps with
  | nil => exact absurd rfl h
  | cons l ls ih =>
    cases ls with
    | nil => simp [joinWithNl]
    | cons l2 ls2 =>
      have ih' := ih (by simp)
      show List.flatten ((l ++ ['\n']) :: (l2 :: ls2).map (fun l => l ++ ['\n'])) =
        (l ++ '\n' :: joinWithNl (l2 :: ls2)) ++ ['\n']
      rw [List.flatten_cons, ih']
      simp [List.append_assoc]

theorem dropLast_addNlButLast (ps : List (List Char)) :
    (addNlButLast ps).dropLast = ps.dropLast.map (fun l => l ++ ['\n']) := by
  induction ps with
  | nil => rfl
  | cons l ls ih =>
    cases ls with
    | nil => rfl
    | cons l2 ls2 =>
      have h2 : addNlButLast (l2 :: ls2) ≠ [] := addNlButLast_ne_nil _ (by simp)
      show ((l ++ ['\n']) :: addNlButLast (l2 :: ls2)).dropLast =
        (l :: (l2 :: ls2).dropLast).map (fun l => l ++ ['\n'])
      rw [List.dropLast_cons_of_ne_nil h2, ih, List.map_cons]

theorem getLast?_addNlButLast (ps : List (List Char)) :
    (addNlButLast ps).getLast? = ps.getLast? := by
  induction ps with
  | nil => rfl
  | cons l ls ih =>
    cases ls with
    | nil => rfl
    | cons l2 ls2 =>
      cases h : addNlButLast (l2 :: ls2) with
      | nil => exact absurd h (addNlButLast_ne_nil _ (by simp))
      | cons a as =>
        show ((l ++ ['\n']) :: addNlButLast (l2 :: ls2)).getLast? = (l :: l2 :: ls2).getLast?
        rw [h, List.getLast?_cons_cons, ← h, ih, List.getLast?_cons_cons]

theorem toLinesEmb_flatten (s : List Char) : List.flatten (toLinesEmb s) = s := by
  rw [toLinesEmb, flatten_addNlButLast _ (splitOnNl_ne_nil s), joinWithNl_splitOnNl]

theorem toLinesComp_flatten (s : List Char) : List.flatten (toLinesComp s) = s ++ ['\n'] := by
  rw [toLinesComp, flatten_mapNl _ (splitOnNl_ne_nil s), joinWithNl_splitOnNl]

theorem toLinesEmb_dropLast_terminated (s : List Char) :
    ∀ l ∈ (toLinesEmb s).dropLast, l.getLast? = some '\n' ∧ '\n' ∉ l.dropLast := by
  intro l hl
  rw [toLinesEmb, dropLast_addNlButLast] at hl
  rcases List.mem_map.mp hl with ⟨p, hp, rfl⟩
  have hnp : '\n' ∉ p :=
    nl_not_mem_splitOnNl s p (List.dropLast_subset _ hp)
  exact ⟨List.getLast?_concat p, by rw [List.dropLast_concat]; exact hnp⟩

theorem toLinesEmb_last_unterminated (s : List Char) :
    ∀ l, (toLinesEmb s).getLast? = some l → '\n' ∉ l := by
  intro l hl
  rw [toLinesEmb, getLast?_addNlButLast] at hl
  rcases List.mem_getLast?_eq_getLast (Option.mem_def.mpr hl) with ⟨hne, heq⟩
  rw [heq]
  exact nl_not_mem_splitOnNl s _ (List.getLast_mem hne)

theorem toLinesComp_all_terminated (s : List Char) :
    ∀ l ∈ toLinesComp s, l.getLast? = some '\n' ∧ '\n' ∉ l.dropLast := by
  intro l hl
  rcases List.mem_map.mp hl with ⟨p, hp, rfl⟩
  have hnp : '\n' ∉ p := nl_not_mem_splitOnNl s p hp
  exact ⟨List.getLast?_concat p, by rw [List.dropLast_concat]; exact hnp⟩

theorem toLinesEmb_ne_nil (s : List Char) : toLinesEmb s ≠ [] :=
  addNlButLast_ne_nil _ (splitOnNl_ne_nil s)

/-- C2 counterexample: the claim states that an `anomaly_percent` of −16
classifies as "Extremely Dry Season"; `_classify_seasonal_anomaly` returns
"Dry Season" for −16 (the extremely-dry band starts at −30). -/
theorem classify_seasonal_minus16_counterexample :
    classify_seasonal_anomaly (-16) = "Dry Season"
      ∧ classify_seasonal_anomaly (-16) ≠ "Extremely Dry Season" := by decide

/-- C2 (amended): for `_classify_seasonal_anomaly`, −15 classifies as
"Dry Season" (the boundary is inclusive), −16 also as "Dry Season"
("Extremely Dry Season" requires the anomaly to be at most −30, where the
boundary is again inclusive), +15 as "Normal Season", +16 as "Wet Season",
and +31 as "Extremely Wet Season". -/
theorem classify_seasonal_boundaries :
    classify_seasonal_anomaly (-15) = "Dry Season"
      ∧ classify_seasonal_anomaly (-16) = "Dry Season"
      ∧ classify_seasonal_anomaly (-30) = "Extremely Dry Season"
      ∧ classify_seasonal_anomaly 15 = "Normal Season"
      ∧ classify_seasonal_anomaly 16 = "Wet Season"
      ∧ classify_seasonal_anomaly 31 = "Extremely Wet Season" := by decide

/-- C4 (amended): the embedding-fix utility replaces a cell's source by
the fixed text split into lines with every line except the last carrying
its trailing terminator and the final line carrying none, so concatenation
reconstitutes the exact text.  The comprehensive utility instead appends
the terminator to every line, the final one included — for the cells it
replaces and the cell it inserts, concatenation reconstitutes the fixed
text plus one extra trailing terminator. -/
theorem patch_line_convention (s : List Char) :
    (List.flatten (toLinesEmb s) = s
      ∧ (∀ l ∈ (toLinesEmb s).dropLast, l.getLast? = some '\n' ∧ '\n' ∉ l.dropLast)
      ∧ (∀ l, (toLinesEmb s).getLast? = some l → '\n' ∉ l))
    ∧ (List.flatten (toLinesComp s) = s ++ ['\n']
      ∧ (∀ l ∈ toLinesComp s, l.getLast? = some '\n' ∧ '\n' ∉ l.dropLast)) :=
  ⟨⟨toLinesEmb_flatten s, toLinesEmb_dropLast_terminated s, toLinesEmb_last_unterminated s⟩,
   toLinesComp_flatten s, toLinesComp_all_terminated s⟩

/-- C4 witness: the conventions evaluated at the configuration-widget
source text. -/
theorem patch_line_convention_witness :
    List.flatten (toLinesComp widget_setup_code) = widget_setup_code ++ ['\n']
      ∧ List.flatten (toLinesEmb widget_setup_code) = widget_setup_code :=
  ⟨(patch_line_convention widget_setup_code).2.1,
   (patch_line_convention widget_setup_code).1.1⟩

/-- C8: `classify_precipitation_anomaly` evaluates inclusive percentile
bands in ascending order, so a value equal to a percentile boundary falls
into the drier class; with baseline percentiles p10 = 20, p25 = 40,
p75 = 100, p90 = 140, the inputs 20, 40, 100, 140, 141 classify as
"Extremely Dry", "Dry", "Normal", "Wet" and "Extremely Wet". -/
theorem classify_precipitation_spec (b : BaselineStat)
    (h1 : b.p10 < b.p25) (h2 : b.p25 < b.p75) (h3 : b.p75 < b.p90) :
    classify_precipitation_anomaly b.p10 b = "Extremely Dry"
      ∧ classify_precipitation_anomaly b.p25 b = "Dry"
      ∧ classify_precipitation_anomaly b.p75 b = "Normal"
      ∧ classify_precipitation_anomaly b.p90 b = "Wet"
      ∧ (∀ v, b.p90 < v → classify_precipitation_anomaly v b = "Extremely Wet")
      ∧ classify_precipitation_anomaly 20 statsExample = "Extremely Dry"
      ∧ classify_precipitation_anomaly 40 statsExample = "Dry"
      ∧ classify_precipitation_anomaly 100 statsExample = "Normal"
      ∧ classify_precipitation_anomaly 140 statsExample = "Wet"
      ∧ classify_precipitation_anomaly 141 statsExample = "Extremely Wet" := by
  refine ⟨?_, ?_, ?_, ?_, ?_, by decide, by decide, by decide, by decide, by decide⟩
  · unfold classify_precipitation_anomaly
    rw [if_pos le_rfl]
  · unfold classify_precipitation_anomaly
    rw [if_neg (not_le.mpr h1), if_pos le_rfl]
  · unfold classify_precipitation_anomaly
    rw [if_neg (not_le.mpr (h1.trans h2)), if_neg (not_le.mpr h2), if_pos le_rfl]
  · unfold classify_precipitation_anomaly
    rw [if_neg (not_le.mpr ((h1.trans h2).trans h3)), if_neg (not_le.mpr (h2.trans h3)),
      if_neg (not_le.mpr h3), if_pos le_rfl]
  · intro v hv
    unfold classify_precipitation_anomaly
    rw [if_neg (not_le.mpr (((h1.trans h2).trans h3).trans hv)),
      if_neg (not_le.mpr ((h2.trans h3).trans hv)),
      if_neg (not_le.mpr (h3.trans hv)), if_neg (not_le.mpr hv)]

/-- C8 witness: the tie-breaking clauses instantiated at the concrete
percentiles of the worked example. -/
theorem classify_precipitation_spec_witness :
    classify_precipitation_anomaly statsExample.p25 statsExample = "Dry"
      ∧ classify_precipitation_anomaly statsExample.p90 statsExample = "Wet" := by
  have h := classify_precipitation_spec statsExample (by decide) (by decide) (by decide)
  exact ⟨h.2.1, h.2.2.2.1⟩

/-- C6: `get_embeddings` returns exactly 64 values, each the defensive
float coercion of the corresponding band mean (a missing or non-numeric
mean becomes 0.0, never a NaN — the embedding lives in `ℚ`, where every
value is finite), a non-negative integer pixel count (0 when the count
entry is absent or non-numeric; the hypothesis records that a realized
count reducer value is non-negative), and the input year. -/
theorem get_embeddings_spec (res : ReduceResult) (year : ℤ)
    (hc : ∀ q, res.countVal = some (PyVal.num q) → 0 ≤ q) :
    (get_embeddings res year).embedding.length = 64
      ∧ (∀ i, i < 64 → (get_embeddings res year).embedding[i]? = some (pyFloat (res.means i)))
      ∧ (∀ i, i < 64 → (res.means i = PyVal.pynull ∨ res.means i = PyVal.nonnum) →
          (get_embeddings res year).embedding[i]? = some 0)
      ∧ 0 ≤ (get_embeddings res year).pixel_count
      ∧ (get_embeddings res year).year = year := by
  refine ⟨by simp [get_embeddings], ?_, ?_, ?_, rfl⟩
  · intro i hi
    simp [get_embeddings, List.getElem?_map, List.getElem?_range, hi]
  · intro i hi hm
    rcases hm with hm | hm <;>
      simp [get_embeddings, List.getElem?_map, List.getElem?_range, hi, hm, pyFloat]
  · rcases hcv : res.countVal with _ | v
    · simp [get_embeddings, hcv, pyIntOfVal, pyTruncToInt]
    · cases v with
      | pynull => simp [get_embeddings, hcv, pyIntOfVal]
      | num q =>
        have hq := hc q hcv
        simp only [get_embeddings, hcv, Option.getD_some, pyIntOfVal, pyTruncToInt, if_pos hq]
        exact Int.le_floor.mpr (by exact_mod_cast hq)
      | nonnum => simp [get_embeddings, hcv, pyIntOfVal]

/-- C6 witness: a reduction result with a missing band, a non-numeric
band, and a fractional pixel count. -/
theorem get_embeddings_spec_witness :
    (get_embeddings reduceResExample 2021).embedding.length = 64
      ∧ 0 ≤ (get_embeddings reduceResExample 2021).pixel_count
      ∧ (get_embeddings reduceResExample 2021).year = 2021 := by
  have h := get_embeddings_spec reduceResExample 2021 (by
    intro q hq
    simp only [reduceResExample, Option.some.injEq] at hq
    rw [← PyVal.num.inj hq]
    norm_num)
  exact ⟨h.1, h.2.2.2.1, h.2.2.2.2⟩

/-- C7: `get_regional_reference` tries the radii `radius_km`,
`radius_km * 2`, `max_radius_km` in that order and accepts only a sample
count above 100: if only the third radius yields 150 samples the result
has `actual_radius = max_radius_km` and `sample_count = 150`; if all three
fail the threshold it returns the zero 64-vector with `sample_count = 0`
and `actual_radius = max_radius_km`; any returned sample count is either 0
or above 100. -/
theorem get_regional_reference_spec (env : SamplingEnv) (r m : ℚ) :
    ((env.size r ≤ 100 ∧ env.size (r * 2) ≤ 100 ∧ env.size m = 150) →
        (get_regional_reference env r m).actual_radius = m
          ∧ (get_regional_reference env r m).sample_count = 150)
      ∧ ((env.size r ≤ 100 ∧ env.size (r * 2) ≤ 100 ∧ env.size m ≤ 100) →
        get_regional_reference env r m =
          { embedding := List.replicate 64 0, sample_count := 0, actual_radius := m })
      ∧ ((get_regional_reference env r m).sample_count = 0
          ∨ 100 < (get_regional_reference env r m).sample_count)
      ∧ (100 < env.size r →
        (get_regional_reference env r m).actual_radius = r
          ∧ (get_regional_reference env r m).sample_count = env.size r)
      ∧ (env.size r ≤ 100 → 100 < env.size (r * 2) →
        (get_regional_reference env r m).actual_radius = r * 2) := by
  have step : ∀ (rr : ℚ) (rs : List ℚ), tryRadii env m (rr :: rs) =
      if 100 < env.size rr then
        { embedding := (env.meanVals rr).map pyFloat
          sample_count := env.size rr
          actual_radius := rr }
      else tryRadii env m rs := fun rr rs => rfl
  refine ⟨?_, ?_, ?_, ?_, ?_⟩
  · rintro ⟨a, b, c⟩
    rw [get_regional_reference, step, if_neg (by omega), step, if_neg (by omega), step,
      if_pos (by omega)]
    exact ⟨rfl, c⟩
  · rintro ⟨a, b, c⟩
    rw [get_regional_reference, step, if_neg (by omega), step, if_neg (by omega), step,
      if_neg (by omega)]
    rfl
  · rw [get_regional_reference, step]
    by_cases h1 : 100 < env.size r
    · rw [if_pos h1]; exact Or.inr h1
    · rw [if_neg h1, step]
      by_cases h2 : 100 < env.size (r * 2)
      · rw [if_pos h2]; exact Or.inr h2
      · rw [if_neg h2, step]
        by_cases h3 : 100 < env.size m
        · rw [if_pos h3]; exact Or.inr h3
        · rw [if_neg h3]; exact Or.inl rfl
  · intro h1
    rw [get_regional_reference, step, if_pos h1]
    exact ⟨rfl, rfl⟩
  · intro h1 h2
    rw [get_regional_reference, step, if_neg (by omega), step, if_pos h2]

/-- C7 witness: the third-radius scenario with 150 samples at the
maximum radius. -/
theorem get_regional_reference_spec_witness :
    (get_regional_reference envThirdRadius 15 50).actual_radius = 50
      ∧ (get_regional_reference envThirdRadius 15 50).sample_count = 150 :=
  (get_regional_reference_spec envThirdRadius 15 50).1
    (by refine ⟨?_, ?_, ?_⟩ <;> norm_num [envThirdRadius])

/-- C10: without a `difference_in_differences` column,
`add_precipitation_context_to_results` still gives every row the four
precipitation columns, matched rows receive the record's anomaly percent,
classification and impact text, and `adjusted_performance` stays 0.0 on
every row, matched rows included. -/
theorem add_precip_no_did_spec (t : ResultsTable) (pd : PrecipData) (h : t.hasDiD = false) :
    (add_precipitation_context_to_results t pd).rows.length = t.rows.length
      ∧ (∀ r ∈ (add_precipitation_context_to_results t pd).rows, r.adjusted_performance = 0)
      ∧ (∀ (i : Nat) (r0 : RowIn) (y : PrecipYear), t.rows[i]? = some r0 →
          pd.yearly_analysis.lookup (toString r0.year) = some y →
          (add_precipitation_context_to_results t pd).rows[i]? = some
            { year := r0.year, crop := r0.crop, did := r0.did, lvb := r0.lvb, lvr := r0.lvr
              precip_anomaly_pct := y.anomaly_percent
              precip_classification := y.classification
              precip_impact := y.vegetation_impact
              adjusted_performance := 0 }) := by
  refine ⟨by simp [add_precipitation_context_to_results], ?_, ?_⟩
  · intro r hr
    simp only [add_precipitation_context_to_results, List.mem_map] at hr
    rcases hr with ⟨r0, hr0, rfl⟩
    unfold enhanceRow
    cases hy : pd.yearly_analysis.lookup (toString r0.year) with
    | none => rfl
    | some y => simp [h]
  · intro i r0 y hi hy
    simp [add_precipitation_context_to_results, List.getElem?_map, hi, enhanceRow, hy, h]

/-- C10 witness: a table without the column whose single row's year has
a matching precipitation record. -/
theorem add_precip_no_did_witness :
    (add_precipitation_context_to_results tableNoDiD precipData2021).rows[0]? = some
      { year := 2021, crop := "wheat", did := 0, lvb := 1, lvr := 0
        precip_anomaly_pct := -20, precip_classification := "Dry Season"
        precip_impact := "Drought stress likely affecting crop growth"
        adjusted_performance := 0 } :=
  (add_precip_no_did_spec tableNoDiD precipData2021 rfl).2.2 0
    { year := 2021, crop := "wheat", did := 0, lvb := 1, lvr := 0 }
    { anomaly_percent := -20, classification := "Dry Season"
      vegetation_impact := "Drought stress likely affecting crop growth" }
    (by decide) (by decide)

/-- C3 (code bug): for every results table carrying a
`difference_in_differences` column, `generate_enhanced_summary` does not
return a report at all: the f-string at line 225 of
`integrate_precipitation.py` places a conditional expression after the
format colon (`{...:.4f if len(dry_years) > 0 else 'N/A'}`), which CPython
passes verbatim to float formatting and rejects with
`ValueError: Invalid format specifier`, so the function raises instead of
completing normally. -/
theorem generate_enhanced_summary_error (t : EnhancedTable) (h : t.hasDiD = true) :
    generate_enhanced_summary t = Except.error "Invalid format specifier" := by
  unfold generate_enhanced_summary
  rw [h]
  rfl

/-- C3 witness: the failure evaluated at a concrete one-row table with
the `difference_in_differences` column. -/
theorem generate_enhanced_summary_error_witness :
    generate_enhanced_summary tableWithDiD = Except.error "Invalid format specifier" :=
  generate_enhanced_summary_error tableWithDiD rfl

/-- C9: when `output_dir/precipitation_context.json` does not exist,
`integrate_precipitation_with_notebook` prints the warning with guidance,
returns the input table unchanged (no columns added), and writes no files
— the file map is exactly the input file map; only the output directory
entry may be created. -/
theorem integrate_missing_file_spec (t : ResultsTable) (d : String) (fs : FileSys)
    (h : fs.files.lookup (d ++ "/precipitation_context.json") = none) :
    integrate_precipitation_with_notebook t d fs =
      Except.ok (DFResult.plain t,
        { dirs := (makedirs d fs).dirs
          files := fs.files
          printed := fs.printed ++
            ["⚠ Warning: precipitation_context.json not found.",
             "  Please run Precipitation_Context_Analysis.ipynb first to generate precipitation data."] }) := by
  have hm : (makedirs d fs).files = fs.files := rfl
  simp only [integrate_precipitation_with_notebook]
  rw [hm, h]
  simp [printMsg, makedirs]

/-- C9 witness: the short-circuit evaluated from an empty local state. -/
theorem integrate_missing_file_witness :
    integrate_precipitation_with_notebook tableNoDiD "output_data" emptyFS =
      Except.ok (DFResult.plain tableNoDiD,
        { dirs := ["output_data"]
          files := []
          printed := ["⚠ Warning: precipitation_context.json not found.",
            "  Please run Precipitation_Context_Analysis.ipynb first to generate precipitation data."] }) := by
  have h := integrate_missing_file_spec tableNoDiD "output_data" emptyFS rfl
  simpa [emptyFS, makedirs] using h

/-- Rounding helper: `round(0, 1) = 0`. -/
theorem pyRound1_zero : pyRound1 0 = 0 := by
  rw [pyRound1, roundHalfEven]
  norm_num

/-- A zero seasonal anomaly classifies as a normal season. -/
theorem classify_seasonal_zero : classify_seasonal_anomaly 0 = "Normal Season" := by
  norm_num [classify_seasonal_anomaly]

/-- C5 (amended): when every growing-season month is missing current
data (and the baseline dict covers April..October, as
`calculate_baseline_statistics` guarantees), `analyze_growing_season`
returns exactly one row per month plus exactly one seasonal-total row
(8 rows); every monthly row carries classification "No Data" with zeroed
precipitation and anomaly fields (the normal field carries the rounded
baseline mean when that mean is positive, not zero); and the seasonal row
reflects zero precipitation and zero normal. -/
theorem analyze_all_missing_spec (cur : List (Nat × Option ℚ))
    (bas : List (Nat × BaselineStat))
    (hmiss : ∀ m ∈ gsMonths, cur.lookup m = some none)
    (hbas : ∀ m ∈ gsMonths, (bas.lookup m).isSome) :
    (analyze_growing_season cur bas).length = 8
      ∧ (∀ r ∈ (analyze_growing_season cur bas).dropLast,
          r.classification = "No Data" ∧ r.precip = 0 ∧ r.anomaly = 0 ∧ r.anomalyPct = 0)
      ∧ (analyze_growing_season cur bas).getLast? = some
          { month := "SEASONAL TOTAL", precip := 0, normal := 0, anomaly := 0, anomalyPct := 0
            classification := "Normal Season" } := by
  obtain ⟨b4, hb4⟩ := Option.isSome_iff_exists.mp (hbas 4 (by decide))
  obtain ⟨b5, hb5⟩ := Option.isSome_iff_exists.mp (hbas 5 (by decide))
  obtain ⟨b6, hb6⟩ := Option.isSome_iff_exists.mp (hbas 6 (by decide))
  obtain ⟨b7, hb7⟩ := Option.isSome_iff_exists.mp (hbas 7 (by decide))
  obtain ⟨b8, hb8⟩ := Option.isSome_iff_exists.mp (hbas 8 (by decide))
  obtain ⟨b9, hb9⟩ := Option.isSome_iff_exists.mp (hbas 9 (by decide))
  obtain ⟨b10, hb10⟩ := Option.isSome_iff_exists.mp (hbas 10 (by decide))
  have h4 := hmiss 4 (by decide)
  have h5 := hmiss 5 (by decide)
  have h6 := hmiss 6 (by decide)
  have h7 := hmiss 7 (by decide)
  have h8 := hmiss 8 (by decide)
  have h9 := hmiss 9 (by decide)
  have h10 := hmiss 10 (by decide)
  have key : analyze_growing_season cur bas =
      [seasonNoDataRow b4, seasonNoDataRow b5, seasonNoDataRow b6, seasonNoDataRow b7,
        seasonNoDataRow b8, seasonNoDataRow b9, seasonNoDataRow b10,
        seasonSummaryRow [seasonNoDataRow b4, seasonNoDataRow b5, seasonNoDataRow b6,
          seasonNoDataRow b7, seasonNoDataRow b8, seasonNoDataRow b9, seasonNoDataRow b10]] := by
    simp [analyze_growing_season, gsMonths, h4, h5, h6, h7, h8, h9, h10,
      hb4, hb5, hb6, hb7, hb8, hb9, hb10]
  have hsum : seasonSummaryRow [seasonNoDataRow b4, seasonNoDataRow b5, seasonNoDataRow b6,
      seasonNoDataRow b7, seasonNoDataRow b8, seasonNoDataRow b9, seasonNoDataRow b10] =
      { month := "SEASONAL TOTAL", precip := 0, normal := 0, anomaly := 0, anomalyPct := 0
        classification := "Normal Season" } := by
    simp [seasonSummaryRow, seasonNoDataRow, pyRound1_zero, classify_seasonal_zero]
  rw [key]
  refine ⟨rfl, ?_, ?_⟩
  · intro r hr
    simp only [List.dropLast, List.mem_cons, List.not_mem_nil, or_false] at hr
    rcases hr with rfl | rfl | rfl | rfl | rfl | rfl | rfl <;> exact ⟨rfl, rfl, rfl, rfl⟩
  · simp [List.getLast?, hsum]

/-- C5 witness: the all-missing year against a positive-mean baseline. -/
theorem analyze_all_missing_witness :
    (analyze_growing_season curAllMissing basAllMissing).length = 8
      ∧ (analyze_growing_season curAllMissing basAllMissing).getLast? = some
          { month := "SEASONAL TOTAL", precip := 0, normal := 0, anomaly := 0, anomalyPct := 0
            classification := "Normal Season" } := by
  have h := analyze_all_missing_spec curAllMissing basAllMissing (by decide) (by decide)
  exact ⟨h.1, h.2.2⟩

/-- Rounding helper: `round(50, 1) = 50`. -/
theorem pyRound1_fifty : pyRound1 50 = 50 := by
  rw [pyRound1, roundHalfEven]
  norm_num

/-- C5 counterexample: the claim states that missing-data rows carry
zeroed numeric fields; with a baseline mean of 50 for April, the April
"No Data" row's normal field is 50, not 0. -/
theorem analyze_all_missing_counterexample :
    (analyze_growing_season curAllMissing basAllMissing)[0]? = some
      { month := "April", precip := 0, normal := 50, anomaly := 0, anomalyPct := 0
        classification := "No Data" }
      ∧ ((50 : ℚ) ≠ 0) := by
  refine ⟨?_, by norm_num⟩
  simp [analyze_growing_season, gsMonths, curAllMissing, basAllMissing, seasonNoDataRow,
    pyRound1_fifty]

/-- C1 counterexample: running `fix_notebook` twice is not idempotent —
the `widget_setup_inserted` guard is local to one run, and the replaced
upload-widgets cell still contains the insertion marker, so the second run
inserts a second configuration-widget cell (widget-cell count goes from 1
to 2 and the document grows by one cell). -/
theorem fix_notebook_not_idempotent :
    widgetCellCount sampleNotebookOnce = 1
      ∧ widgetCellCount sampleNotebookTwice = 2
      ∧ sampleNotebookTwice.length = sampleNotebookOnce.length + 1 := by decide

/-- C1 (amended): the second run reproduces the six target cells'
content exactly (all replacements are idempotent) but inserts one
additional configuration-widget cell immediately before the upload-widgets
cell; the insertion guard holds at most once per run, not across runs. -/
theorem fix_notebook_second_run :
    sampleNotebookTwice =
      sampleNotebookOnce.take 3 ++ widgetSetupCell :: sampleNotebookOnce.drop 3 := by decide

/-- C4 counterexample: the claim states the final source line of a
replaced or inserted cell carries no line terminator; for the cell the
comprehensive utility inserts, the final source line ends with a newline,
and the concatenated source is the fixed text plus one extra terminator. -/
theorem comp_inserted_cell_counterexample :
    sampleNotebookOnce[2]? = some widgetSetupCell
      ∧ widgetSetupCell.source.getLast?.bind List.getLast? = some '\n'
      ∧ List.flatten widgetSetupCell.source = widget_setup_code ++ ['\n']
      ∧ widget_setup_code ++ ['\n'] ≠ widget_setup_code := by decide
